import Mathlib

set_option linter.unusedVariables false

/-
Verification of the RuntimeBridge specification against
src/src/java.base/share/native/libjava/Runtime.c.

The bridge entry points (Java_java_lang_Runtime_*) are translated directly
from the C source.  The engine-internal services they call (JVM_FreeMemory,
JVM_TotalMemory, JVM_MaxMemory, JVM_GC, JVM_ActiveProcessorCount, JVM_SizeOf,
JVM_GetReferencedObjects, JVM_AddressOf, JVM_FieldOffsetOf, JVM_FieldSizeOf)
are not part of src/: they are abstracted as an arbitrary record of functions
(`Engine`), and, where a claim is about the engine side of the contract, also
modelled from the spec (`specEngine`).
-/

/-- Opaque token standing for the JNIEnv pointer passed to every native entry
point.  The bridge only ever forwards it. -/
abbrev JNIEnv := Nat

/-- A jobject handle: either NULL (`none`) or an opaque reference (`some id`)
into the engine's live-entity tables.  jobjectArray handles are jobject
handles as well, exactly as in the C source. -/
abbrev JObject := Option Nat

/-- Engine-defined errors signalled back through the native failure channel
(pending exception), per the spec's error taxonomy. -/
inductive EngineErr
  | invalidHandle
  | unsupportedOperation
  | other (code : Nat)
deriving DecidableEq

/-- Result of one engine-internal service invocation: a value, or an
engine-signalled failure in the native failure channel. -/
abbrev JResult (α : Type) := Except EngineErr α

/-- Values of the C type jint: 32-bit signed integers. -/
def Jint : Type := {n : Int // -2147483648 ≤ n ∧ n < 2147483648}

/-- Values of the C type jlong: 64-bit signed integers. -/
def Jlong : Type := {n : Int // -9223372036854775808 ≤ n ∧ n < 9223372036854775808}

instance : DecidableEq Jint := fun a b =>
  decidable_of_iff (a.val = b.val) Subtype.ext_iff.symm

instance : DecidableEq Jlong := fun a b =>
  decidable_of_iff (a.val = b.val) Subtype.ext_iff.symm

/-- Modelled from the spec: what the engine records about one live managed
object — its shallow size in bytes and the ids of the objects it directly
references.  The engine's object representation is not part of src/. -/
structure ObjInfo where
  size : Jlong
  refs : List Nat
deriving DecidableEq

/-- Modelled from the spec: what the engine records about one field
descriptor — the raw address of the field's storage, its byte offset within
the containing object, and its byte size.  Not part of src/. -/
structure FieldInfo where
  address : Jlong
  offset : Jlong
  fsize : Jlong
deriving DecidableEq

/-- First-match lookup in an association list keyed by handle ids. -/
def alookup {α : Type} (l : List (Nat × α)) (k : Nat) : Option α :=
  match l with
  | [] => none
  | p :: t => if p.1 = k then some p.2 else alookup t k

/-- Replace the value stored under a key, leaving every other entry alone. -/
def aupdate {α : Type} (l : List (Nat × α)) (k : Nat) (v : α) : List (Nat × α) :=
  match l with
  | [] => []
  | p :: t => if p.1 = k then (p.1, v) :: t else p :: aupdate t k v

/-- Modelled from the spec: the engine-internal state observable through the
bridge — the three heap-memory scalars (`maxHeap = none` meaning unbounded),
the processor count, the live-object table, the field-descriptor table, and
the caller-supplied reference buffers.  None of this state belongs to the
bridge; the engine owns all of it. -/
structure EngineState where
  free : Nat
  committed : Nat
  maxHeap : Option Nat
  procs : Nat
  objects : List (Nat × ObjInfo)
  fields : List (Nat × FieldInfo)
  buffers : List (Nat × List (Option Nat))
deriving DecidableEq

/-- The ten engine-internal services consumed by the bridge, one per entry
point of Runtime.c. -/
inductive Service
  | freeMemory
  | totalMemory
  | maxMemory
  | gc
  | activeProcessorCount
  | sizeOf
  | getReferencedObjects
  | addressOf
  | fieldOffsetOf
  | fieldSizeOf
deriving DecidableEq

/-- An execution engine: one opaque function per engine-internal service,
with the result types dictated by the C prototypes of the JVM_* functions
(jlong for the memory and layout queries, jint for the processor count and
the reference count, void for GC).  Each service may also signal an
engine-defined failure and may change engine state. -/
structure Engine where
  JVM_FreeMemory : EngineState → JResult Jlong × EngineState
  JVM_TotalMemory : EngineState → JResult Jlong × EngineState
  JVM_MaxMemory : EngineState → JResult Jlong × EngineState
  JVM_GC : EngineState → JResult Unit × EngineState
  JVM_ActiveProcessorCount : EngineState → JResult Jint × EngineState
  JVM_SizeOf : JObject → EngineState → JResult Jlong × EngineState
  JVM_GetReferencedObjects :
      JNIEnv → JObject → JObject → EngineState → JResult Jint × EngineState
  JVM_AddressOf : JObject → EngineState → JResult Jlong × EngineState
  JVM_FieldOffsetOf : JObject → EngineState → JResult Jlong × EngineState
  JVM_FieldSizeOf : JObject → EngineState → JResult Jlong × EngineState

/-- Output of one bridge call: the result handed back to the managed caller,
the engine state afterwards, and the list of engine-internal services the
call invoked, in order. -/
abbrev BridgeOut (α : Type) := JResult α × EngineState × List Service

/-- Invoke one engine-internal service and record the invocation.  Every
bridge entry point body in Runtime.c is a single such call. -/
def callService {α : Type} (svc : Service)
    (f : EngineState → JResult α × EngineState) (s : EngineState) : BridgeOut α :=
  ((f s).1, (f s).2, [svc])

/-- Translation of Java_java_lang_Runtime_freeMemory (Runtime.c lines 44-48):
the body is the single call `return JVM_FreeMemory();`. -/
def Java_java_lang_Runtime_freeMemory (E : Engine) (env : JNIEnv)
    (self : JObject) (s : EngineState) : BridgeOut Jlong :=
  callService Service.freeMemory E.JVM_FreeMemory s

/-- Translation of Java_java_lang_Runtime_totalMemory (Runtime.c lines 50-54):
the body is the single call `return JVM_TotalMemory();`. -/
def Java_java_lang_Runtime_totalMemory (E : Engine) (env : JNIEnv)
    (self : JObject) (s : EngineState) : BridgeOut Jlong :=
  callService Service.totalMemory E.JVM_TotalMemory s

/-- Translation of Java_java_lang_Runtime_maxMemory (Runtime.c lines 56-60):
the body is the single call `return JVM_MaxMemory();`. -/
def Java_java_lang_Runtime_maxMemory (E : Engine) (env : JNIEnv)
    (self : JObject) (s : EngineState) : BridgeOut Jlong :=
  callService Service.maxMemory E.JVM_MaxMemory s

/-- Translation of Java_java_lang_Runtime_gc (Runtime.c lines 62-66):
the body is the single call `JVM_GC();`. -/
def Java_java_lang_Runtime_gc (E : Engine) (env : JNIEnv)
    (self : JObject) (s : EngineState) : BridgeOut Unit :=
  callService Service.gc E.JVM_GC s

/-- Translation of Java_java_lang_Runtime_availableProcessors (Runtime.c
lines 68-72): the body is the single call `return JVM_ActiveProcessorCount();`. -/
def Java_java_lang_Runtime_availableProcessors (E : Engine) (env : JNIEnv)
    (self : JObject) (s : EngineState) : BridgeOut Jint :=
  callService Service.activeProcessorCount E.JVM_ActiveProcessorCount s

/-- Translation of Java_java_lang_Runtime_sizeOf0 (Runtime.c lines 74-78):
the body is the single call `return JVM_SizeOf(obj);`. -/
def Java_java_lang_Runtime_sizeOf0 (E : Engine) (env : JNIEnv)
    (self obj : JObject) (s : EngineState) : BridgeOut Jlong :=
  callService Service.sizeOf (E.JVM_SizeOf obj) s

/-- Translation of Java_java_lang_Runtime_getReferences0 (Runtime.c lines
80-84): the body is the single call
`return JVM_GetReferencedObjects(env, obj, ref_buf);`.  This is the only
entry point that forwards the JNIEnv pointer. -/
def Java_java_lang_Runtime_getReferences0 (E : Engine) (env : JNIEnv)
    (self obj ref_buf : JObject) (s : EngineState) : BridgeOut Jint :=
  callService Service.getReferencedObjects
    (E.JVM_GetReferencedObjects env obj ref_buf) s

/-- Translation of Java_java_lang_Runtime_addressOf0 (Runtime.c lines 86-90):
the body is the single call `return JVM_AddressOf(field);`. -/
def Java_java_lang_Runtime_addressOf0 (E : Engine) (env : JNIEnv)
    (self field : JObject) (s : EngineState) : BridgeOut Jlong :=
  callService Service.addressOf (E.JVM_AddressOf field) s

/-- Translation of Java_java_lang_Runtime_fieldOffsetOf0 (Runtime.c lines
92-96): the body is the single call `return JVM_FieldOffsetOf(field);`. -/
def Java_java_lang_Runtime_fieldOffsetOf0 (E : Engine) (env : JNIEnv)
    (self field : JObject) (s : EngineState) : BridgeOut Jlong :=
  callService Service.fieldOffsetOf (E.JVM_FieldOffsetOf field) s

/-- Translation of Java_java_lang_Runtime_fieldSizeOf0 (Runtime.c lines
98-102): the body is the single call `return JVM_FieldSizeOf(field);`. -/
def Java_java_lang_Runtime_fieldSizeOf0 (E : Engine) (env : JNIEnv)
    (self field : JObject) (s : EngineState) : BridgeOut Jlong :=
  callService Service.fieldSizeOf (E.JVM_FieldSizeOf field) s

/-- Reduction of a natural number onto the jint value range, two's-complement
style: the wrap `% 2^32` is applied exactly where the 32-bit return type of
the C prototype truncates. -/
def natToJint (n : Nat) : Jint :=
  ⟨((n : Int) + 2147483648) % 4294967296 - 2147483648, by
    have h1 : (0 : Int) ≤ ((n : Int) + 2147483648) % 4294967296 :=
      Int.emod_nonneg _ (by decide)
    have h2 : ((n : Int) + 2147483648) % 4294967296 < 4294967296 :=
      Int.emod_lt_of_pos _ (by decide)
    omega⟩

/-- Reduction of a natural number onto the non-negative jlong value range:
the wrap `% 2^63` is applied exactly where the 64-bit signed return type of
the C prototype confines the value. -/
def natToJlong (n : Nat) : Jlong :=
  ⟨(n : Int) % 9223372036854775808, by
    have h1 : (0 : Int) ≤ (n : Int) % 9223372036854775808 :=
      Int.emod_nonneg _ (by decide)
    have h2 : (n : Int) % 9223372036854775808 < 9223372036854775808 :=
      Int.emod_lt_of_pos _ (by decide)
    omega⟩

/-- Modelled from the spec: the engine-defined sentinel meaning "unbounded"
returned by the max-memory service; the largest jlong value. -/
def unboundedSentinel : Jlong := ⟨9223372036854775807, by decide⟩

/-- A handle fails object validation when it is null or does not refer to a
live entry of the engine's object table. -/
def invalidObjHandle (s : EngineState) (h : JObject) : Bool :=
  match h with
  | none => true
  | some oid => (alookup s.objects oid).isNone

/-- A handle fails field-descriptor validation when it is null or does not
refer to a live entry of the engine's field-descriptor table. -/
def invalidFieldHandle (s : EngineState) (h : JObject) : Bool :=
  match h with
  | none => true
  | some fid => (alookup s.fields fid).isNone

/-- A handle fails buffer validation when it is null or does not refer to a
live caller-supplied reference buffer. -/
def invalidBufHandle (s : EngineState) (h : JObject) : Bool :=
  match h with
  | none => true
  | some bid => (alookup s.buffers bid).isNone

/-- Modelled from the spec: an execution engine implementing the ten
engine-internal services exactly as the spec describes them, since the JVM_*
implementations are engine code not present under src/.  Memory and
processor queries return the engine scalars; GC is a fire-and-forget request
whose effect is an arbitrary engine-chosen transition `gcStep`; the five
object-introspection services fail with `invalidHandle` on a null or stale
handle and otherwise answer from the engine tables; the reference-enumeration
service writes at most `capacity` references into the caller's buffer and
returns the total number found. -/
def specEngine (gcStep : EngineState → EngineState) : Engine where
  JVM_FreeMemory := fun s => (Except.ok (natToJlong s.free), s)
  JVM_TotalMemory := fun s => (Except.ok (natToJlong s.committed), s)
  JVM_MaxMemory := fun s =>
    (Except.ok (match s.maxHeap with
      | some n => natToJlong n
      | none => unboundedSentinel), s)
  JVM_GC := fun s => (Except.ok (), gcStep s)
  JVM_ActiveProcessorCount := fun s => (Except.ok (natToJint s.procs), s)
  JVM_SizeOf := fun obj s =>
    match obj with
    | none => (Except.error EngineErr.invalidHandle, s)
    | some oid =>
      match alookup s.objects oid with
      | none => (Except.error EngineErr.invalidHandle, s)
      | some o => (Except.ok o.size, s)
  JVM_GetReferencedObjects := fun env obj buf s =>
    match obj with
    | none => (Except.error EngineErr.invalidHandle, s)
    | some oid =>
      match alookup s.objects oid with
      | none => (Except.error EngineErr.invalidHandle, s)
      | some o =>
        match buf with
        | none => (Except.error EngineErr.invalidHandle, s)
        | some bid =>
          match alookup s.buffers bid with
          | none => (Except.error EngineErr.invalidHandle, s)
          | some bs =>
            let m := min o.refs.length bs.length
            let written := (o.refs.take m).map some ++ bs.drop m
            (Except.ok (natToJint o.refs.length),
             { s with buffers := aupdate s.buffers bid written })
  JVM_AddressOf := fun fld s =>
    match fld with
    | none => (Except.error EngineErr.invalidHandle, s)
    | some fid =>
      match alookup s.fields fid with
      | none => (Except.error EngineErr.invalidHandle, s)
      | some fi => (Except.ok fi.address, s)
  JVM_FieldOffsetOf := fun fld s =>
    match fld with
    | none => (Except.error EngineErr.invalidHandle, s)
    | some fid =>
      match alookup s.fields fid with
      | none => (Except.error EngineErr.invalidHandle, s)
      | some fi => (Except.ok fi.offset, s)
  JVM_FieldSizeOf := fun fld s =>
    match fld with
    | none => (Except.error EngineErr.invalidHandle, s)
    | some fid =>
      match alookup s.fields fid with
      | none => (Except.error EngineErr.invalidHandle, s)
      | some fi => (Except.ok fi.fsize, s)

/-- Modelled from the spec: the engine memory-manager contract — committed
heap bytes never exceed the maximum heap bytes the engine is permitted to
commit, and heap sizes fit in a jlong. -/
def memContract (s : EngineState) : Bool :=
  match s.maxHeap with
  | some n => decide (s.committed ≤ n) && decide (n < 9223372036854775808)
  | none => true

/-- An engine that accepts a null object handle: its size service answers 0
for NULL instead of failing.  Used to exhibit that the bridge itself imposes
no argument validation of its own. -/
def nullAcceptingEngine : Engine :=
  { specEngine id with
      JVM_SizeOf := fun obj s => (Except.ok (natToJlong 0), s) }

/-- A small concrete engine state: 2 free bytes, 3 committed of at most 8,
4 processors, one live object of size 0 with no references. -/
def stateA : EngineState :=
  { free := 2, committed := 3, maxHeap := some 8, procs := 4,
    objects := [(1, { size := natToJlong 0, refs := [] })],
    fields := [], buffers := [] }

/-- Concrete state with one live object holding three direct references and
one caller-supplied two-slot reference buffer. -/
def stateC2 : EngineState :=
  { free := 0, committed := 0, maxHeap := none, procs := 1,
    objects := [(1, { size := natToJlong 16, refs := [2, 3, 4] })],
    fields := [], buffers := [(7, [none, none])] }

/-- The jlong value 2^31, one past the top of the jint range. -/
def bigSize : Jlong := ⟨2147483648, by decide⟩

/-- Concrete state whose single live object has shallow size 2^31 bytes. -/
def stateBig : EngineState :=
  { free := 0, committed := 0, maxHeap := none, procs := 1,
    objects := [(1, { size := bigSize, refs := [] })],
    fields := [], buffers := [] }

/-- The empty concrete engine state. -/
def s0 : EngineState :=
  { free := 0, committed := 0, maxHeap := none, procs := 1,
    objects := [], fields := [], buffers := [] }

theorem alookup_aupdate_self {α : Type} {l : List (Nat × α)} {k : Nat} {w : α}
    (v : α) (h : alookup l k = some w) :
    alookup (aupdate l k v) k = some v := by
  induction l with
  | nil => simp [alookup] at h
  | cons p t ih =>
    by_cases hk : p.1 = k
    · simp [alookup, aupdate, hk]
    · simp only [alookup, aupdate, hk, if_false] at h ⊢
      exact ih h

theorem aupdate_of_alookup_self {α : Type} {l : List (Nat × α)} {k : Nat} {v : α}
    (h : alookup l k = some v) : aupdate l k v = l := by
  induction l with
  | nil => rfl
  | cons p t ih =>
    obtain ⟨a, b⟩ := p
    by_cases hk : a = k
    · subst hk
      simp [alookup] at h
      simp [aupdate, h]
    · simp only [alookup, if_neg hk] at h
      simp only [aupdate, if_neg hk]
      rw [ih h]

theorem natToJint_val_of_lt {n : Nat} (h : n < 2147483648) :
    (natToJint n).val = (n : Int) := by
  show ((n : Int) + 2147483648) % 4294967296 - 2147483648 = (n : Int)
  rw [Int.emod_eq_of_lt (by omega) (by omega)]
  omega

theorem natToJlong_val_of_lt {n : Nat} (h : n < 9223372036854775808) :
    (natToJlong n).val = (n : Int) := by
  show (n : Int) % 9223372036854775808 = (n : Int)
  exact Int.emod_eq_of_lt (by omega) (by omega)

theorem natToJlong_val_nonneg (n : Nat) : 0 ≤ (natToJlong n).val :=
  Int.emod_nonneg _ (by decide)

/-- Claim C1: a single call to any bridge operation invokes exactly one
engine-internal service exactly once, returns that service's result to the
caller unmodified, substitutes no fallback value, performs no retry, and
surfaces any engine-signalled failure unchanged through the native failure
channel: each entry point's full output is literally the corresponding
service's result and post-state, with a one-element invocation trace.
(Runtime.c defines ten such entry points; the property holds of each one of
them, hence of every one of the nine the spec enumerates.) -/
theorem C1_single_forward (E : Engine) (env : JNIEnv) (self obj field buf : JObject)
    (s : EngineState) :
    Java_java_lang_Runtime_freeMemory E env self s
      = ((E.JVM_FreeMemory s).1, (E.JVM_FreeMemory s).2, [Service.freeMemory])
  ∧ Java_java_lang_Runtime_totalMemory E env self s
      = ((E.JVM_TotalMemory s).1, (E.JVM_TotalMemory s).2, [Service.totalMemory])
  ∧ Java_java_lang_Runtime_maxMemory E env self s
      = ((E.JVM_MaxMemory s).1, (E.JVM_MaxMemory s).2, [Service.maxMemory])
  ∧ Java_java_lang_Runtime_gc E env self s
      = ((E.JVM_GC s).1, (E.JVM_GC s).2, [Service.gc])
  ∧ Java_java_lang_Runtime_availableProcessors E env self s
      = ((E.JVM_ActiveProcessorCount s).1, (E.JVM_ActiveProcessorCount s).2,
         [Service.activeProcessorCount])
  ∧ Java_java_lang_Runtime_sizeOf0 E env self obj s
      = ((E.JVM_SizeOf obj s).1, (E.JVM_SizeOf obj s).2, [Service.sizeOf])
  ∧ Java_java_lang_Runtime_getReferences0 E env self obj buf s
      = ((E.JVM_GetReferencedObjects env obj buf s).1,
         (E.JVM_GetReferencedObjects env obj buf s).2,
         [Service.getReferencedObjects])
  ∧ Java_java_lang_Runtime_addressOf0 E env self field s
      = ((E.JVM_AddressOf field s).1, (E.JVM_AddressOf field s).2,
         [Service.addressOf])
  ∧ Java_java_lang_Runtime_fieldOffsetOf0 E env self field s
      = ((E.JVM_FieldOffsetOf field s).1, (E.JVM_FieldOffsetOf field s).2,
         [Service.fieldOffsetOf])
  ∧ Java_java_lang_Runtime_fieldSizeOf0 E env self field s
      = ((E.JVM_FieldSizeOf field s).1, (E.JVM_FieldSizeOf field s).2,
         [Service.fieldSizeOf]) :=
  ⟨rfl, rfl, rfl, rfl, rfl, rfl, rfl, rfl, rfl, rfl⟩

/-- Claim C8: gc returns no result, never raises an error under the
spec-modelled engine, and always returns control to the caller; it only
requests a collection — the engine transition is an arbitrary `gcStep`, and
the identity step (no collection at all) is admissible, so the call gives
no guarantee that a collection actually ran. -/
theorem C8_gc_fire_and_forget (gcStep : EngineState → EngineState) (env : JNIEnv)
    (self : JObject) (s : EngineState) :
    Java_java_lang_Runtime_gc (specEngine gcStep) env self s
      = (Except.ok (), gcStep s, [Service.gc])
  ∧ Java_java_lang_Runtime_gc (specEngine id) env self s
      = (Except.ok (), s, [Service.gc]) :=
  ⟨rfl, rfl⟩

/-- Claim C9: every bridge operation except getReferences0 computes its
result without using the JNIEnv pointer or the receiver object argument:
two calls that differ only in those two arguments produce identical outputs
— the same result, the same engine state and the same service invocation. -/
theorem C9_env_receiver_independent (E : Engine) (env env' : JNIEnv)
    (self self' obj field buf : JObject) (s : EngineState) :
    Java_java_lang_Runtime_freeMemory E env self s
      = Java_java_lang_Runtime_freeMemory E env' self' s
  ∧ Java_java_lang_Runtime_totalMemory E env self s
      = Java_java_lang_Runtime_totalMemory E env' self' s
  ∧ Java_java_lang_Runtime_maxMemory E env self s
      = Java_java_lang_Runtime_maxMemory E env' self' s
  ∧ Java_java_lang_Runtime_gc E env self s
      = Java_java_lang_Runtime_gc E env' self' s
  ∧ Java_java_lang_Runtime_availableProcessors E env self s
      = Java_java_lang_Runtime_availableProcessors E env' self' s
  ∧ Java_java_lang_Runtime_sizeOf0 E env self obj s
      = Java_java_lang_Runtime_sizeOf0 E env' self' obj s
  ∧ Java_java_lang_Runtime_addressOf0 E env self field s
      = Java_java_lang_Runtime_addressOf0 E env' self' field s
  ∧ Java_java_lang_Runtime_fieldOffsetOf0 E env self field s
      = Java_java_lang_Runtime_fieldOffsetOf0 E env' self' field s
  ∧ Java_java_lang_Runtime_fieldSizeOf0 E env self field s
      = Java_java_lang_Runtime_fieldSizeOf0 E env' self' field s :=
  ⟨rfl, rfl, rfl, rfl, rfl, rfl, rfl, rfl, rfl⟩

/-- Claim C4 counterexample: called with the null object handle — an
argument of invalid shape by the spec's own InvalidHandle taxonomy — the
sizeOf0 entry point still invokes its engine-internal service and returns
whatever that service answers (here an engine that accepts NULL and answers
0, so the call even succeeds): the bridge rejected nothing before
forwarding, refuting the claim that each operation validates the shape of
its arguments before forwarding. -/
theorem C4_counterexample :
    Java_java_lang_Runtime_sizeOf0 nullAcceptingEngine 0 none none s0
      = (Except.ok (natToJlong 0), s0, [Service.sizeOf])
  ∧ (Java_java_lang_Runtime_sizeOf0 nullAcceptingEngine 0 none none s0).2.2 ≠ [] :=
  ⟨rfl, by decide⟩

/-- Claim C4 (amended): no bridge operation validates its arguments — each
argument-taking entry point forwards its arguments unconditionally to its
engine-internal service, whatever their shape (null handles included): for
every argument value, the service is invoked and its answer is returned as
is; all validation belongs to the engine. -/
theorem C4_amended_no_validation (E : Engine) (env : JNIEnv)
    (self obj field buf : JObject) (s : EngineState) :
    (Java_java_lang_Runtime_sizeOf0 E env self obj s).2.2 = [Service.sizeOf]
  ∧ (Java_java_lang_Runtime_sizeOf0 E env self obj s).1 = (E.JVM_SizeOf obj s).1
  ∧ (Java_java_lang_Runtime_getReferences0 E env self obj buf s).2.2
      = [Service.getReferencedObjects]
  ∧ (Java_java_lang_Runtime_getReferences0 E env self obj buf s).1
      = (E.JVM_GetReferencedObjects env obj buf s).1
  ∧ (Java_java_lang_Runtime_addressOf0 E env self field s).2.2 = [Service.addressOf]
  ∧ (Java_java_lang_Runtime_addressOf0 E env self field s).1 = (E.JVM_AddressOf field s).1
  ∧ (Java_java_lang_Runtime_fieldOffsetOf0 E env self field s).2.2 = [Service.fieldOffsetOf]
  ∧ (Java_java_lang_Runtime_fieldOffsetOf0 E env self field s).1 = (E.JVM_FieldOffsetOf field s).1
  ∧ (Java_java_lang_Runtime_fieldSizeOf0 E env self field s).2.2 = [Service.fieldSizeOf]
  ∧ (Java_java_lang_Runtime_fieldSizeOf0 E env self field s).1 = (E.JVM_FieldSizeOf field s).1 :=
  ⟨rfl, rfl, rfl, rfl, rfl, rfl, rfl, rfl, rfl, rfl⟩

/-- Claim C5: the bridge holds no mutable state of its own — no operation
reads or writes any bridge-local variable, and nothing persists between
calls: whenever two engines and engine states yield the same response to
the one service an operation invokes, the operation's entire output (result,
post-state and trace) coincides, so each call's behaviour is a function
only of its arguments and the engine's response. -/
theorem C5_stateless (E E' : Engine) (env : JNIEnv) (self obj field buf : JObject)
    (s s' : EngineState) :
    (E.JVM_FreeMemory s = E'.JVM_FreeMemory s' →
      Java_java_lang_Runtime_freeMemory E env self s
        = Java_java_lang_Runtime_freeMemory E' env self s')
  ∧ (E.JVM_TotalMemory s = E'.JVM_TotalMemory s' →
      Java_java_lang_Runtime_totalMemory E env self s
        = Java_java_lang_Runtime_totalMemory E' env self s')
  ∧ (E.JVM_MaxMemory s = E'.JVM_MaxMemory s' →
      Java_java_lang_Runtime_maxMemory E env self s
        = Java_java_lang_Runtime_maxMemory E' env self s')
  ∧ (E.JVM_GC s = E'.JVM_GC s' →
      Java_java_lang_Runtime_gc E env self s
        = Java_java_lang_Runtime_gc E' env self s')
  ∧ (E.JVM_ActiveProcessorCount s = E'.JVM_ActiveProcessorCount s' →
      Java_java_lang_Runtime_availableProcessors E env self s
        = Java_java_lang_Runtime_availableProcessors E' env self s')
  ∧ (E.JVM_SizeOf obj s = E'.JVM_SizeOf obj s' →
      Java_java_lang_Runtime_sizeOf0 E env self obj s
        = Java_java_lang_Runtime_sizeOf0 E' env self obj s')
  ∧ (E.JVM_GetReferencedObjects env obj buf s = E'.JVM_GetReferencedObjects env obj buf s' →
      Java_java_lang_Runtime_getReferences0 E env self obj buf s
        = Java_java_lang_Runtime_getReferences0 E' env self obj buf s')
  ∧ (E.JVM_AddressOf field s = E'.JVM_AddressOf field s' →
      Java_java_lang_Runtime_addressOf0 E env self field s
        = Java_java_lang_Runtime_addressOf0 E' env self field s')
  ∧ (E.JVM_FieldOffsetOf field s = E'.JVM_FieldOffsetOf field s' →
      Java_java_lang_Runtime_fieldOffsetOf0 E env self field s
        = Java_java_lang_Runtime_fieldOffsetOf0 E' env self field s')
  ∧ (E.JVM_FieldSizeOf field s = E'.JVM_FieldSizeOf field s' →
      Java_java_lang_Runtime_fieldSizeOf0 E env self field s
        = Java_java_lang_Runtime_fieldSizeOf0 E' env self field s') := by
  refine ⟨?_, ?_, ?_, ?_, ?_, ?_, ?_, ?_, ?_, ?_⟩ <;> intro h
  · simp only [Java_java_lang_Runtime_freeMemory, callService, h]
  · simp only [Java_java_lang_Runtime_totalMemory, callService, h]
  · simp only [Java_java_lang_Runtime_maxMemory, callService, h]
  · simp only [Java_java_lang_Runtime_gc, callService, h]
  · simp only [Java_java_lang_Runtime_availableProcessors, callService, h]
  · simp only [Java_java_lang_Runtime_sizeOf0, callService, h]
  · simp only [Java_java_lang_Runtime_getReferences0, callService, h]
  · simp only [Java_java_lang_Runtime_addressOf0, callService, h]
  · simp only [Java_java_lang_Runtime_fieldOffsetOf0, callService, h]
  · simp only [Java_java_lang_Runtime_fieldSizeOf0, callService, h]

/-- Witness for C5: two distinct engines (the spec-modelled one and the
NULL-accepting variant) that happen to give the same service responses on
`stateA` produce identical bridge outputs on every operation. -/
theorem C5_stateless_witness :
    Java_java_lang_Runtime_freeMemory (specEngine id) 0 none stateA
      = Java_java_lang_Runtime_freeMemory nullAcceptingEngine 0 none stateA
  ∧ Java_java_lang_Runtime_totalMemory (specEngine id) 0 none stateA
      = Java_java_lang_Runtime_totalMemory nullAcceptingEngine 0 none stateA
  ∧ Java_java_lang_Runtime_maxMemory (specEngine id) 0 none stateA
      = Java_java_lang_Runtime_maxMemory nullAcceptingEngine 0 none stateA
  ∧ Java_java_lang_Runtime_gc (specEngine id) 0 none stateA
      = Java_java_lang_Runtime_gc nullAcceptingEngine 0 none stateA
  ∧ Java_java_lang_Runtime_availableProcessors (specEngine id) 0 none stateA
      = Java_java_lang_Runtime_availableProcessors nullAcceptingEngine 0 none stateA
  ∧ Java_java_lang_Runtime_sizeOf0 (specEngine id) 0 none (some 1) stateA
      = Java_java_lang_Runtime_sizeOf0 nullAcceptingEngine 0 none (some 1) stateA
  ∧ Java_java_lang_Runtime_getReferences0 (specEngine id) 0 none (some 1) none stateA
      = Java_java_lang_Runtime_getReferences0 nullAcceptingEngine 0 none (some 1) none stateA
  ∧ Java_java_lang_Runtime_addressOf0 (specEngine id) 0 none none stateA
      = Java_java_lang_Runtime_addressOf0 nullAcceptingEngine 0 none none stateA
  ∧ Java_java_lang_Runtime_fieldOffsetOf0 (specEngine id) 0 none none stateA
      = Java_java_lang_Runtime_fieldOffsetOf0 nullAcceptingEngine 0 none none stateA
  ∧ Java_java_lang_Runtime_fieldSizeOf0 (specEngine id) 0 none none stateA
      = Java_java_lang_Runtime_fieldSizeOf0 nullAcceptingEngine 0 none none stateA := by
  have h := C5_stateless (specEngine id) nullAcceptingEngine 0 none (some 1) none none
    stateA stateA
  exact ⟨h.1 rfl, h.2.1 rfl, h.2.2.1 rfl, h.2.2.2.1 rfl, h.2.2.2.2.1 rfl,
    h.2.2.2.2.2.1 rfl, h.2.2.2.2.2.2.1 rfl, h.2.2.2.2.2.2.2.1 rfl,
    h.2.2.2.2.2.2.2.2.1 rfl, h.2.2.2.2.2.2.2.2.2 rfl⟩

/-- Claim C7: availableProcessors returns an integer greater than or equal
to 1 under the engine contract that the processor-count service it forwards
to returns a positive integer: the bridge hands that service's answer back
unchanged. -/
theorem C7_available_processors_pos (E : Engine) (env : JNIEnv) (self : JObject)
    (s : EngineState) (n : Jint)
    (hsvc : (E.JVM_ActiveProcessorCount s).1 = Except.ok n) (hpos : 1 ≤ n.val) :
    (Java_java_lang_Runtime_availableProcessors E env self s).1 = Except.ok n
  ∧ 1 ≤ n.val :=
  ⟨hsvc, hpos⟩

/-- Witness for C7: on a 4-processor engine state the bridge reports 4. -/
theorem C7_available_processors_witness :
    (Java_java_lang_Runtime_availableProcessors (specEngine id) 0 none stateA).1
      = Except.ok (natToJint 4)
  ∧ 1 ≤ (natToJint 4).val :=
  C7_available_processors_pos (specEngine id) 0 none stateA (natToJint 4) rfl (by decide)

/-- Claim C3: each object-introspection operation invoked with a null or
already-invalidated handle fails with the InvalidHandle error and produces
no partial side effect — the engine state after the call, and with it any
caller-supplied reference buffer, is exactly the state before the call. -/
theorem C3_invalid_handle_rejected (gcStep : EngineState → EngineState)
    (env : JNIEnv) (self obj field buf : JObject) (s : EngineState) :
    (invalidObjHandle s obj = true →
      Java_java_lang_Runtime_sizeOf0 (specEngine gcStep) env self obj s
        = (Except.error EngineErr.invalidHandle, s, [Service.sizeOf]))
  ∧ (invalidObjHandle s obj = true ∨ invalidBufHandle s buf = true →
      Java_java_lang_Runtime_getReferences0 (specEngine gcStep) env self obj buf s
        = (Except.error EngineErr.invalidHandle, s, [Service.getReferencedObjects]))
  ∧ (invalidFieldHandle s field = true →
      Java_java_lang_Runtime_addressOf0 (specEngine gcStep) env self field s
        = (Except.error EngineErr.invalidHandle, s, [Service.addressOf]))
  ∧ (invalidFieldHandle s field = true →
      Java_java_lang_Runtime_fieldOffsetOf0 (specEngine gcStep) env self field s
        = (Except.error EngineErr.invalidHandle, s, [Service.fieldOffsetOf]))
  ∧ (invalidFieldHandle s field = true →
      Java_java_lang_Runtime_fieldSizeOf0 (specEngine gcStep) env self field s
        = (Except.error EngineErr.invalidHandle, s, [Service.fieldSizeOf])) := by
  refine ⟨?_, ?_, ?_, ?_, ?_⟩
  · intro h
    cases obj with
    | none => rfl
    | some oid =>
      simp only [invalidObjHandle, Option.isNone_iff_eq_none] at h
      simp [Java_java_lang_Runtime_sizeOf0, callService, specEngine, h]
  · intro h
    cases obj with
    | none => rfl
    | some oid =>
      cases hlo : alookup s.objects oid with
      | none =>
        simp [Java_java_lang_Runtime_getReferences0, callService, specEngine, hlo]
      | some o =>
        have hbuf : invalidBufHandle s buf = true := by
          rcases h with h | h
          · simp [invalidObjHandle, hlo] at h
          · exact h
        cases buf with
        | none =>
          simp [Java_java_lang_Runtime_getReferences0, callService, specEngine, hlo]
        | some bid =>
          simp only [invalidBufHandle, Option.isNone_iff_eq_none] at hbuf
          simp [Java_java_lang_Runtime_getReferences0, callService, specEngine, hlo, hbuf]
  · intro h
    cases field with
    | none => rfl
    | some fid =>
      simp only [invalidFieldHandle, Option.isNone_iff_eq_none] at h
      simp [Java_java_lang_Runtime_addressOf0, callService, specEngine, h]
  · intro h
    cases field with
    | none => rfl
    | some fid =>
      simp only [invalidFieldHandle, Option.isNone_iff_eq_none] at h
      simp [Java_java_lang_Runtime_fieldOffsetOf0, callService, specEngine, h]
  · intro h
    cases field with
    | none => rfl
    | some fid =>
      simp only [invalidFieldHandle, Option.isNone_iff_eq_none] at h
      simp [Java_java_lang_Runtime_fieldSizeOf0, callService, specEngine, h]

/-- Witness for C3: on a concrete state, each of the five introspection
operations called with the null handle fails with InvalidHandle and leaves
the state — buffers included — untouched. -/
theorem C3_invalid_handle_witness :
    Java_java_lang_Runtime_sizeOf0 (specEngine id) 0 none none stateA
      = (Except.error EngineErr.invalidHandle, stateA, [Service.sizeOf])
  ∧ Java_java_lang_Runtime_getReferences0 (specEngine id) 0 none none none stateA
      = (Except.error EngineErr.invalidHandle, stateA, [Service.getReferencedObjects])
  ∧ Java_java_lang_Runtime_addressOf0 (specEngine id) 0 none none stateA
      = (Except.error EngineErr.invalidHandle, stateA, [Service.addressOf])
  ∧ Java_java_lang_Runtime_fieldOffsetOf0 (specEngine id) 0 none none stateA
      = (Except.error EngineErr.invalidHandle, stateA, [Service.fieldOffsetOf])
  ∧ Java_java_lang_Runtime_fieldSizeOf0 (specEngine id) 0 none none stateA
      = (Except.error EngineErr.invalidHandle, stateA, [Service.fieldSizeOf]) := by
  have h := C3_invalid_handle_rejected id 0 none none none none stateA
  exact ⟨h.1 rfl, h.2.1 (Or.inl rfl), h.2.2.1 rfl, h.2.2.2.1 rfl, h.2.2.2.2 rfl⟩

/-- Claim C6: under the engine memory contract, freeMemory, totalMemory and
maxMemory each return a non-negative integer, and the value totalMemory
returns is at most the value maxMemory returns whenever the latter is not
the engine's unbounded sentinel. -/
theorem C6_memory_scalars (gcStep : EngineState → EngineState) (env : JNIEnv)
    (self : JObject) (s : EngineState) (hc : memContract s = true) :
    (Java_java_lang_Runtime_freeMemory (specEngine gcStep) env self s).1
      = Except.ok (natToJlong s.free)
  ∧ 0 ≤ (natToJlong s.free).val
  ∧ (Java_java_lang_Runtime_totalMemory (specEngine gcStep) env self s).1
      = Except.ok (natToJlong s.committed)
  ∧ 0 ≤ (natToJlong s.committed).val
  ∧ (∀ w : Jlong,
      (Java_java_lang_Runtime_maxMemory (specEngine gcStep) env self s).1 = Except.ok w →
      0 ≤ w.val ∧ (w ≠ unboundedSentinel → (natToJlong s.committed).val ≤ w.val)) := by
  refine ⟨rfl, natToJlong_val_nonneg _, rfl, natToJlong_val_nonneg _, ?_⟩
  intro w hw
  have hval : (Except.ok (match s.maxHeap with
      | some n => natToJlong n
      | none => unboundedSentinel) : JResult Jlong) = Except.ok w := hw
  cases hm : s.maxHeap with
  | none =>
    rw [hm] at hval
    have hws : w = unboundedSentinel := (Except.ok.injEq _ _).mp hval.symm
    subst hws
    exact ⟨by decide, fun hne => absurd rfl hne⟩
  | some n =>
    rw [hm] at hval
    have hwn : w = natToJlong n := (Except.ok.injEq _ _).mp hval.symm
    unfold memContract at hc
    rw [hm] at hc
    simp only [Bool.and_eq_true, decide_eq_true_eq] at hc
    subst hwn
    refine ⟨natToJlong_val_nonneg n, fun hne => ?_⟩
    rw [natToJlong_val_of_lt (lt_of_le_of_lt hc.1 hc.2), natToJlong_val_of_lt hc.2]
    omega

/-- Witness for C6: on a concrete state committing 3 of at most 8 bytes with
2 bytes free, the three memory queries return 2, 3 and 8, all non-negative,
with 3 at most 8. -/
theorem C6_memory_scalars_witness :
    (Java_java_lang_Runtime_freeMemory (specEngine id) 0 none stateA).1
      = Except.ok (natToJlong 2)
  ∧ 0 ≤ (natToJlong 2).val
  ∧ (Java_java_lang_Runtime_totalMemory (specEngine id) 0 none stateA).1
      = Except.ok (natToJlong 3)
  ∧ 0 ≤ (natToJlong 3).val
  ∧ (∀ w : Jlong,
      (Java_java_lang_Runtime_maxMemory (specEngine id) 0 none stateA).1 = Except.ok w →
      0 ≤ w.val ∧ (w ≠ unboundedSentinel → (natToJlong 3).val ≤ w.val)) :=
  C6_memory_scalars id 0 none stateA rfl

/-- Claim C2: for an object with exactly k direct references and a
caller-supplied buffer of capacity c, getReferences0 returns k — the total
found, which may exceed c — the buffer's first min(k, c) slots are
populated with the found references while its remaining slots and its
capacity are unchanged, and when k = 0 the call returns 0 and the engine
state, the buffer included, is left unmodified. -/
theorem C2_get_references_semantics (gcStep : EngineState → EngineState)
    (env : JNIEnv) (self : JObject) (oid bid : Nat) (s : EngineState)
    (o : ObjInfo) (bs : List (Option Nat))
    (ho : alookup s.objects oid = some o)
    (hb : alookup s.buffers bid = some bs)
    (hk : o.refs.length < 2147483648) :
    (Java_java_lang_Runtime_getReferences0 (specEngine gcStep) env self
        (some oid) (some bid) s).1 = Except.ok (natToJint o.refs.length)
  ∧ (natToJint o.refs.length).val = (o.refs.length : Int)
  ∧ (∃ bs' : List (Option Nat),
      alookup (Java_java_lang_Runtime_getReferences0 (specEngine gcStep) env self
          (some oid) (some bid) s).2.1.buffers bid = some bs'
      ∧ bs'.take (min o.refs.length bs.length)
          = (o.refs.take (min o.refs.length bs.length)).map some
      ∧ bs'.drop (min o.refs.length bs.length) = bs.drop (min o.refs.length bs.length)
      ∧ bs'.length = bs.length)
  ∧ (o.refs.length = 0 →
      (Java_java_lang_Runtime_getReferences0 (specEngine gcStep) env self
          (some oid) (some bid) s).1 = Except.ok (natToJint 0)
      ∧ (Java_java_lang_Runtime_getReferences0 (specEngine gcStep) env self
          (some oid) (some bid) s).2.1 = s) := by
  have hrun : Java_java_lang_Runtime_getReferences0 (specEngine gcStep) env self
      (some oid) (some bid) s
      = (Except.ok (natToJint o.refs.length),
         { s with buffers := (aupdate s.buffers bid
             ((o.refs.take (min o.refs.length bs.length)).map some
               ++ bs.drop (min o.refs.length bs.length))) },
         [Service.getReferencedObjects]) := by
    simp [Java_java_lang_Runtime_getReferences0, callService, specEngine, ho, hb]
  have hlen : ((o.refs.take (min o.refs.length bs.length)).map some).length
      = min o.refs.length bs.length := by
    simp only [List.length_map, List.length_take]
    omega
  refine ⟨by rw [hrun], natToJint_val_of_lt hk, ?_, ?_⟩
  · refine ⟨(o.refs.take (min o.refs.length bs.length)).map some
        ++ bs.drop (min o.refs.length bs.length), ?_, ?_, ?_, ?_⟩
    · rw [hrun]
      exact alookup_aupdate_self _ hb
    · exact List.take_left' hlen
    · exact List.drop_left' hlen
    · simp only [List.length_append, List.length_drop, hlen]
      omega
  · intro h0
    have hnil : o.refs = [] := List.length_eq_zero.mp h0
    refine ⟨by rw [hrun, h0], ?_⟩
    rw [hrun]
    show { s with buffers := (aupdate s.buffers bid
        ((o.refs.take (min o.refs.length bs.length)).map some
          ++ bs.drop (min o.refs.length bs.length))) } = s
    rw [hnil]
    simp only [List.take_nil, List.map_nil, List.nil_append, List.length_nil,
      Nat.zero_min, List.drop_zero]
    rw [aupdate_of_alookup_self hb]

/-- Witness for C2: a concrete object with three references enumerated into
a two-slot buffer — the call reports 3, fills both slots, and a
zero-reference variant leaves everything untouched. -/
theorem C2_get_references_witness :
    (Java_java_lang_Runtime_getReferences0 (specEngine id) 0 none
        (some 1) (some 7) stateC2).1 = Except.ok (natToJint 3)
  ∧ (natToJint 3).val = ((3 : Nat) : Int)
  ∧ (∃ bs' : List (Option Nat),
      alookup (Java_java_lang_Runtime_getReferences0 (specEngine id) 0 none
          (some 1) (some 7) stateC2).2.1.buffers 7 = some bs'
      ∧ bs'.take (min 3 2) = ([2, 3, 4].take (min 3 2)).map some
      ∧ bs'.drop (min 3 2) = [none, none].drop (min 3 2)
      ∧ bs'.length = 2)
  ∧ ((3 : Nat) = 0 →
      (Java_java_lang_Runtime_getReferences0 (specEngine id) 0 none
          (some 1) (some 7) stateC2).1 = Except.ok (natToJint 0)
      ∧ (Java_java_lang_Runtime_getReferences0 (specEngine id) 0 none
          (some 1) (some 7) stateC2).2.1 = stateC2) :=
  C2_get_references_semantics id 0 none 1 7 stateC2
    { size := natToJlong 16, refs := [2, 3, 4] } [none, none] rfl rfl (by decide)

/-- Claim C10: the reference count getReferences0 hands back has the C type
jint — every value the bridge can convey to the caller lies in the 32-bit
signed range — whereas the jlong-typed results of sizeOf0 and the other
layout queries are not so confined: the spec-modelled engine can answer
sizeOf0 with 2^31, a jlong value outside the jint range. -/
theorem C10_reference_count_is_jint (E : Engine) (env : JNIEnv)
    (self obj buf : JObject) (s : EngineState) (n : Jint)
    (h : (Java_java_lang_Runtime_getReferences0 E env self obj buf s).1 = Except.ok n) :
    (-2147483648 ≤ n.val ∧ n.val < 2147483648)
  ∧ (∃ v : Jlong,
      (Java_java_lang_Runtime_sizeOf0 (specEngine id) env self (some 1) stateBig).1
        = Except.ok v
      ∧ ¬(v.val < 2147483648)) :=
  ⟨n.property, ⟨bigSize, rfl, by decide⟩⟩

/-- Witness for C10: a concrete enumeration call returning the count 3,
inside the jint range, alongside the out-of-range jlong size answer. -/
theorem C10_reference_count_witness :
    ((-2147483648 ≤ (natToJint 3).val ∧ (natToJint 3).val < 2147483648))
  ∧ (∃ v : Jlong,
      (Java_java_lang_Runtime_sizeOf0 (specEngine id) 0 none (some 1) stateBig).1
        = Except.ok v
      ∧ ¬(v.val < 2147483648)) :=
  C10_reference_count_is_jint (specEngine id) 0 none (some 1) (some 7) stateC2
    (natToJint 3) rfl
